import Mathlib

/-
  Verification development for the hyb8nate hibernation scheduler.

  The repository ships a React/TypeScript frontend (under frontend/src) and a
  FastAPI backend; the backend sources are not part of the checked tree, so the
  backend components (Time Window Evaluator, Schedule Store, Reconciler,
  Lifecycle API) are modelled from the specification, as marked on each
  definition.  Frontend definitions (Schedule, ScheduleCreate, handleSubmit,
  the axios response interceptor) are embedded directly from the TypeScript
  sources.

  Times of day are minutes since midnight (0 .. 1439); timestamps are Nat.
-/

/-- The two desired states produced by the Time Window Evaluator. -/
inductive DesiredState where
  | hibernating
  | running
deriving DecidableEq, Repr

/-- Modelled from the spec: the backend Time Window Evaluator
(`desired_state(now_local_minute, down_time, up_time)`, spec §4.1) is not
under src/.  Window is `[down_time, up_time)` in minute-of-day space.
If `down_time == up_time` the window is degenerate and never hibernating;
if `down_time < up_time`, hibernating iff `down_time ≤ now < up_time`;
otherwise the window crosses midnight and hibernating iff
`now ≥ down_time` or `now < up_time`. -/
def desired_state (now down_time up_time : Nat) : DesiredState :=
  if down_time = up_time then .running
  else if down_time < up_time then
    if down_time ≤ now ∧ now < up_time then .hibernating else .running
  else
    if now ≥ down_time ∨ now < up_time then .hibernating else .running

/-- C1: for `down_time ≠ up_time`, `desired_state` is hibernating exactly on
the half-open window (with wraparound when the window crosses midnight), it
matches the three concrete reference points `desired(23:59, 22:00, 08:00) =
hibernating`, `desired(08:00, 22:00, 08:00) = running`,
`desired(07:59, 22:00, 08:00) = hibernating`, and it always returns exactly
one of hibernating or running. -/
theorem desired_state_window_correct (now down_time up_time : Nat)
    (hne : down_time ≠ up_time) :
    (desired_state now down_time up_time = .hibernating ↔
      ((down_time < up_time ∧ down_time ≤ now ∧ now < up_time) ∨
        (up_time < down_time ∧ (now ≥ down_time ∨ now < up_time))))
    ∧ desired_state 1439 1320 480 = .hibernating
    ∧ desired_state 480 1320 480 = .running
    ∧ desired_state 479 1320 480 = .hibernating
    ∧ (desired_state now down_time up_time = .hibernating ↔
        ¬ desired_state now down_time up_time = .running) := by
  refine ⟨?_, by decide, by decide, by decide, ?_⟩
  · unfold desired_state
    rcases Nat.lt_or_ge down_time up_time with hlt | hge
    · simp only [hne, if_neg hne, if_pos hlt]
      by_cases hw : down_time ≤ now ∧ now < up_time
      · simp [hw, hlt]
      · simp only [if_neg hw]
        constructor
        · intro h; cases h
        · rintro (⟨_, h2, h3⟩ | ⟨hgt, _⟩)
          · exact absurd ⟨h2, h3⟩ hw
          · exact absurd hlt (Nat.lt_asymm hgt)
    · have hgt : up_time < down_time := Nat.lt_of_le_of_ne hge (Ne.symm hne)
      have hnlt : ¬ down_time < up_time := Nat.not_lt.mpr hge
      simp only [if_neg hne, if_neg hnlt]
      by_cases hw : now ≥ down_time ∨ now < up_time
      · simp [hw, hgt]
      · simp only [if_neg hw]
        constructor
        · intro h; cases h
        · rintro (⟨hlt, _⟩ | ⟨_, h2⟩)
          · exact absurd hlt hnlt
          · exact absurd h2 hw
  · unfold desired_state
    rcases Nat.lt_or_ge down_time up_time with hlt | hge
    · simp only [if_neg hne, if_pos hlt]
      by_cases hw : down_time ≤ now ∧ now < up_time <;> simp [hw]
    · have hnlt : ¬ down_time < up_time := Nat.not_lt.mpr hge
      simp only [if_neg hne, if_neg hnlt]
      by_cases hw : now ≥ down_time ∨ now < up_time <;> simp [hw]

/-- Witness for `desired_state_window_correct` at `now = 1439`,
`down_time = 1320`, `up_time = 480`. -/
theorem desired_state_window_correct_witness :
    (1320 : Nat) ≠ 480 ∧
      (desired_state 1439 1320 480 = .hibernating ↔
        ((1320 < 480 ∧ 1320 ≤ 1439 ∧ 1439 < 480) ∨
          (480 < 1320 ∧ (1439 ≥ 1320 ∨ 1439 < 480)))) :=
  ⟨by decide, (desired_state_window_correct 1439 1320 480 (by decide)).1⟩

/-- C6: a zero-width window (`down_time == up_time`) is never hibernating:
`desired_state` returns running for every `now`, as an ordinary result. -/
theorem desired_state_zero_width (now t : Nat) :
    desired_state now t t = .running := by
  unfold desired_state
  simp

/-- Modelled from the spec: the backend Schedule entity (spec §3) is not under
src/.  `ns`/`workload_name` form the natural key; `is_hibernating`,
`original_replica_count` and `last_actuated_at` are the actuation fields; a
deleted schedule is kept with `deleted = true` so that "not deleted" is
expressible.  Times of day are minutes since midnight. -/
structure ScheduleRec where
  id : Nat
  ns : String
  workload_name : String
  scale_down_time : Nat
  scale_up_time : Nat
  enabled : Bool
  is_hibernating : Bool
  original_replica_count : Option Nat
  last_actuated_at : Option Nat
  deleted : Bool
deriving DecidableEq, Repr

/-- Modelled from the spec: a fresh schedule as created by the Lifecycle API
(spec §3, Lifecycle): `enabled` defaults to true, `is_hibernating = false`,
`original_replica_count = null`. -/
def mkSchedule (id : Nat) (ns wl : String) (down up : Nat) : ScheduleRec :=
  { id := id, ns := ns, workload_name := wl, scale_down_time := down,
    scale_up_time := up, enabled := true, is_hibernating := false,
    original_replica_count := none, last_actuated_at := none, deleted := false }

/-- Whether the store holds a non-deleted schedule for the given
(namespace, workload_name) pair. -/
def hasActive (st : List ScheduleRec) (ns wl : String) : Bool :=
  st.any fun s => !s.deleted && s.ns == ns && s.workload_name == wl

/-- Modelled from the spec: `try_create(namespace, workload_name, …) →
Schedule | ConflictError` (spec §4.2), an atomic check-and-insert against the
uniqueness invariant.  The returned store is unchanged on conflict. -/
def try_create (st : List ScheduleRec) (id : Nat) (ns wl : String)
    (down up : Nat) : Except Unit ScheduleRec × List ScheduleRec :=
  if hasActive st ns wl then (.error (), st)
  else (.ok (mkSchedule id ns wl down up), mkSchedule id ns wl down up :: st)

/-- Modelled from the spec: deletion by the Lifecycle API (spec §3); the
record is marked deleted so the pair becomes free for a new create. -/
def delete_schedule (st : List ScheduleRec) (i : Nat) : List ScheduleRec :=
  st.map fun s => if s.id == i then { s with deleted := true } else s

/-- The actuation-field update applied by a successful compare-and-set. -/
def casRecord (s : ScheduleRec) (newHib : Bool) (newOrig newAt : Option Nat) :
    ScheduleRec :=
  { s with is_hibernating := newHib, original_replica_count := newOrig,
           last_actuated_at := newAt }

/-- Modelled from the spec: `compare_and_set_actuation(id,
expected_is_hibernating, new_is_hibernating, new_original_replica_count,
new_last_actuated_at) → bool` (spec §4.2): succeeds only if the stored
`is_hibernating` still equals `expected_is_hibernating` at write time;
returns false on mismatch, leaving the store unchanged. -/
def compare_and_set_actuation (st : List ScheduleRec) (i : Nat)
    (expected newHib : Bool) (newOrig newAt : Option Nat) :
    Bool × List ScheduleRec :=
  match st.find? (fun s => s.id == i) with
  | none => (false, st)
  | some s =>
    if s.is_hibernating == expected then
      (true, st.map fun t =>
        if t.id == i then casRecord t newHib newOrig newAt else t)
    else (false, st)

/-- The uniqueness invariant: among non-deleted schedules, the
(namespace, workload_name) pairs are pairwise distinct. -/
def uniqueActive (st : List ScheduleRec) : Prop :=
  st.Pairwise fun a b =>
    a.deleted = false → b.deleted = false →
      a.ns ≠ b.ns ∨ a.workload_name ≠ b.workload_name

instance uniqueActive.instDecidable (st : List ScheduleRec) :
    Decidable (uniqueActive st) := by
  unfold uniqueActive; infer_instance

/-- Maps that do not un-delete a record and keep its natural key preserve the
uniqueness invariant. -/
theorem uniqueActive_map (f : ScheduleRec → ScheduleRec)
    (hf : ∀ s, ((f s).deleted = false → s.deleted = false) ∧
      (f s).ns = s.ns ∧ (f s).workload_name = s.workload_name)
    (st : List ScheduleRec) (h : uniqueActive st) :
    uniqueActive (st.map f) := by
  unfold uniqueActive at h ⊢
  refine List.Pairwise.map f (fun a b hab => ?_) h
  intro ha hb
  obtain ⟨hda, hna, hwa⟩ := hf a
  obtain ⟨hdb, hnb, hwb⟩ := hf b
  rw [hna, hnb, hwa, hwb]
  exact hab (hda ha) (hdb hb)

/-- After deleting every active holder of the pair (they all have id `i`),
the pair is free again. -/
theorem hasActive_delete (st : List ScheduleRec) (i : Nat) (ns wl : String)
    (h : ∀ s ∈ st, s.deleted = false → s.ns = ns → s.workload_name = wl →
      s.id = i) :
    hasActive (delete_schedule st i) ns wl = false := by
  induction st with
  | nil => rfl
  | cons a t ih =>
    have ha := h a (List.mem_cons_self a t)
    have ht : ∀ s ∈ t, s.deleted = false → s.ns = ns →
        s.workload_name = wl → s.id = i :=
      fun s hs => h s (List.mem_cons_of_mem a hs)
    simp only [delete_schedule, List.map_cons, hasActive, List.any_cons,
      Bool.or_eq_false_iff]
    refine ⟨?_, ?_⟩
    · by_cases hid : a.id = i
      · simp [hid]
      · have hid2 : (a.id == i) = false := by simp [hid]
        simp only [hid2, Bool.false_eq_true, if_false]
        by_cases hd : a.deleted
        · simp [hd]
        · by_cases hns : a.ns = ns
          · by_cases hwlq : a.workload_name = wl
            · exact absurd (ha (by simp [hd]) hns hwlq) hid
            · simp [hwlq]
          · simp [hns]
    · have := ih ht
      simpa [hasActive, delete_schedule] using this

/-- C3: among non-deleted schedules at most one exists per
(namespace, workload_name) pair: a duplicate create is rejected with a
Conflict and leaves the store unchanged, a create for the pair succeeds again
once the holder is deleted, and create, delete and compare-and-set all
preserve the uniqueness invariant. -/
theorem schedule_pair_uniqueness (st : List ScheduleRec) (id i : Nat)
    (ns wl : String) (down up : Nat) (expected newHib : Bool)
    (newOrig newAt : Option Nat) (huniq : uniqueActive st) :
    (hasActive st ns wl = true →
      try_create st id ns wl down up = (.error (), st))
    ∧ ((∀ s ∈ st, s.deleted = false → s.ns = ns → s.workload_name = wl →
          s.id = i) →
        try_create (delete_schedule st i) id ns wl down up =
          (.ok (mkSchedule id ns wl down up),
            mkSchedule id ns wl down up :: delete_schedule st i))
    ∧ uniqueActive (try_create st id ns wl down up).2
    ∧ uniqueActive (delete_schedule st i)
    ∧ uniqueActive
        (compare_and_set_actuation st i expected newHib newOrig newAt).2 := by
  refine ⟨?_, ?_, ?_, ?_, ?_⟩
  · intro h
    simp [try_create, h]
  · intro h
    have hfree := hasActive_delete st i ns wl h
    simp [try_create, hfree]
  · by_cases h : hasActive st ns wl
    · simpa [try_create, h] using huniq
    · simp only [try_create, h, Bool.false_eq_true, if_false]
      unfold uniqueActive at huniq ⊢
      rw [List.pairwise_cons]
      refine ⟨fun b hb hdm hdb => ?_, huniq⟩
      by_contra hcon
      push_neg at hcon
      obtain ⟨hns, hwl⟩ := hcon
      have hb2 : hasActive st ns wl = true := by
        refine List.any_eq_true.mpr ⟨b, hb, ?_⟩
        simp [mkSchedule] at hns hwl
        simp [hdb, hns.symm, hwl.symm]
      exact absurd hb2 (by simpa using h)
  · unfold delete_schedule
    refine uniqueActive_map _ (fun s => ?_) st huniq
    by_cases hid : (s.id == i) = true <;> simp [hid]
  · unfold compare_and_set_actuation
    cases hf : st.find? (fun s => s.id == i) with
    | none => exact huniq
    | some s =>
      by_cases hh : (s.is_hibernating == expected) = true
      · simp only [hh, if_true]
        refine uniqueActive_map _ (fun t => ?_) st huniq
        by_cases hid : (t.id == i) = true <;> simp [hid, casRecord]
      · simp only [hh, Bool.false_eq_true, if_false]
        exact huniq

/-- A one-element store used to instantiate the store theorems. -/
def storeW : List ScheduleRec := [mkSchedule 1 "apps" "web" 1320 480]

/-- Witness for `schedule_pair_uniqueness` on the concrete one-element store
`storeW`, creating the same pair with id 2 and deleting id 1. -/
theorem schedule_pair_uniqueness_witness :
    uniqueActive storeW ∧
      ((hasActive storeW "apps" "web" = true →
        try_create storeW 2 "apps" "web" 600 700 = (.error (), storeW))
      ∧ ((∀ s ∈ storeW, s.deleted = false → s.ns = "apps" →
            s.workload_name = "web" → s.id = 1) →
          try_create (delete_schedule storeW 1) 2 "apps" "web" 600 700 =
            (.ok (mkSchedule 2 "apps" "web" 600 700),
              mkSchedule 2 "apps" "web" 600 700 :: delete_schedule storeW 1))
      ∧ uniqueActive (try_create storeW 2 "apps" "web" 600 700).2
      ∧ uniqueActive (delete_schedule storeW 1)
      ∧ uniqueActive
          (compare_and_set_actuation storeW 1 false true (some 3) (some 5)).2) :=
  ⟨by decide,
    schedule_pair_uniqueness storeW 2 1 "apps" "web" 600 700 false true
      (some 3) (some 5) (by decide)⟩

/-- C5: `compare_and_set_actuation` succeeds and applies the new actuation
fields exactly when the stored `is_hibernating` equals
`expected_is_hibernating` at write time, and returns false leaving the store
unchanged on mismatch. -/
theorem compare_and_set_actuation_semantics (st : List ScheduleRec) (i : Nat)
    (expected newHib : Bool) (newOrig newAt : Option Nat) (s : ScheduleRec)
    (hfind : st.find? (fun t => t.id == i) = some s) :
    ((compare_and_set_actuation st i expected newHib newOrig newAt).1 = true ↔
      s.is_hibernating = expected)
    ∧ (s.is_hibernating = expected →
        (compare_and_set_actuation st i expected newHib newOrig
            newAt).2.find? (fun t => t.id == i) =
          some (casRecord s newHib newOrig newAt))
    ∧ (s.is_hibernating ≠ expected →
        compare_and_set_actuation st i expected newHib newOrig newAt =
          (false, st)) := by
  have hsid : (s.id == i) = true := by
    have := List.find?_some hfind
    simpa using this
  by_cases hh : s.is_hibernating = expected
  · have hb : (s.is_hibernating == expected) = true := by simp [hh]
    refine ⟨by simp [compare_and_set_actuation, hfind, hb, hh],
      fun _ => ?_, fun hcon => absurd hh hcon⟩
    simp only [compare_and_set_actuation, hfind, hb, if_true]
    rw [List.find?_map]
    have hfun :
        ((fun t : ScheduleRec => t.id == i) ∘
          (fun t => if t.id == i then casRecord t newHib newOrig newAt
            else t)) = fun t : ScheduleRec => t.id == i := by
      funext t
      by_cases hid : t.id = i <;> simp [hid, casRecord]
    have hsid2 : s.id = i := by simpa using hsid
    rw [hfun, hfind]
    simp [hsid2, casRecord]
  · have hb : (s.is_hibernating == expected) = false := by
      simpa using hh
    refine ⟨?_, fun hcon => absurd hcon hh, fun _ => ?_⟩
    · simp [compare_and_set_actuation, hfind, hb, hh]
    · simp [compare_and_set_actuation, hfind, hb]

/-- Witness for `compare_and_set_actuation_semantics` on `storeW`, whose
single record (id 1) has `is_hibernating = false`. -/
theorem compare_and_set_actuation_semantics_witness :
    storeW.find? (fun t => t.id == 1) = some (mkSchedule 1 "apps" "web" 1320 480)
    ∧ (((compare_and_set_actuation storeW 1 false true (some 3)
          (some 5)).1 = true ↔
        (mkSchedule 1 "apps" "web" 1320 480).is_hibernating = false)
      ∧ ((mkSchedule 1 "apps" "web" 1320 480).is_hibernating = false →
          (compare_and_set_actuation storeW 1 false true (some 3)
              (some 5)).2.find? (fun t => t.id == 1) =
            some (casRecord (mkSchedule 1 "apps" "web" 1320 480) true
              (some 3) (some 5)))
      ∧ ((mkSchedule 1 "apps" "web" 1320 480).is_hibernating ≠ false →
          compare_and_set_actuation storeW 1 false true (some 3) (some 5) =
            (false, storeW))) :=
  ⟨by decide,
    compare_and_set_actuation_semantics storeW 1 false true (some 3) (some 5)
      (mkSchedule 1 "apps" "web" 1320 480) (by decide)⟩

/-- One schedule together with the live replica count of its workload in the
cluster. -/
structure World where
  sched : ScheduleRec
  live : Nat
deriving DecidableEq, Repr

/-- Reconcile outcomes (spec §4.4): already converged, actuated, or a
transient gateway failure to be retried on the next tick. -/
inductive Outcome where
  | converged
  | actuated
  | retry
deriving DecidableEq, Repr

/-- The desired hibernation flag for one schedule at minute `now`: a disabled
schedule always desires running (spec §4.4 step 1), an enabled one follows the
Time Window Evaluator. -/
def desiredHib (now : Nat) (w : World) : Bool :=
  (if w.sched.enabled then
      desired_state now w.sched.scale_down_time w.sched.scale_up_time
    else .running) == .hibernating

/-- Modelled from the spec: the Reconciler (`reconcile(schedule, now)`,
spec §4.4) is not under src/.  `setOk` abstracts the Orchestrator Gateway
`set_replica_count` result (false = Transient failure); `get_replica_count`
is read off the live count.  When desired equals the persisted flag the run
is a no-op; otherwise scaling down reads the current replica count and
commits the compare-and-set (capturing the count) before calling
`set_replica_count(…, 0)`, and scaling up commits the compare-and-set
(clearing the capture) before calling `set_replica_count` with the
previously stored `original_replica_count`.  The commit is written with
`casRecord` — the update a successful `compare_and_set_actuation` applies;
in a single run the guard always passes because `expected` is the flag just
read.  The periodic trust-but-verify of step 3a is not part of a plain
tick. -/
def reconcile (setOk : Bool) (now : Nat) (w : World) : World × Outcome :=
  if desiredHib now w = w.sched.is_hibernating then (w, .converged)
  else if desiredHib now w then
    let s2 := casRecord w.sched true (some w.live) (some now)
    if setOk then ({ sched := s2, live := 0 }, .actuated)
    else ({ sched := s2, live := w.live }, .retry)
  else
    let target := w.sched.original_replica_count.getD 0
    let s2 := casRecord w.sched false none (some now)
    if setOk then ({ sched := s2, live := target }, .actuated)
    else ({ sched := s2, live := w.live }, .retry)

/-- An enabled, not-hibernating schedule with window 22:00 → 08:00, used to
instantiate the reconciler theorems. -/
def schedW : ScheduleRec :=
  { id := 1, ns := "apps", workload_name := "web", scale_down_time := 1320,
    scale_up_time := 480, enabled := true, is_hibernating := false,
    original_replica_count := none, last_actuated_at := none,
    deleted := false }

/-- A world used to instantiate the reconciler theorems: `schedW` with 3 live
replicas. -/
def worldW : World := { sched := schedW, live := 3 }

/-- C2 counterexample: reconciling `worldW` at 23:59 with a failing gateway
still flips the persisted `is_hibernating` from false to true, because the
store commit precedes the `set_replica_count` call — a schedule whose gateway
call failed does not keep its previous `is_hibernating` value. -/
theorem is_hibernating_flips_despite_failed_gateway :
    worldW.sched.is_hibernating = false
    ∧ (reconcile false 1439 worldW).2 = .retry
    ∧ (reconcile false 1439 worldW).1.sched.is_hibernating = true
    ∧ (reconcile false 1439 worldW).1.live = worldW.live := by
  decide

/-- C2 amended: the reconciler commits the store before calling the gateway:
whenever desired differs from the persisted flag, the run sets
`is_hibernating` to the desired value regardless of the gateway result, and a
failed `set_replica_count` leaves the live count untouched with outcome
`retry`, to be redone by the next tick while the flag and the captured
`original_replica_count` are already durable. -/
theorem reconcile_commits_store_before_gateway (setOk : Bool) (now : Nat)
    (w : World) (hdiff : desiredHib now w ≠ w.sched.is_hibernating) :
    (reconcile setOk now w).1.sched.is_hibernating = desiredHib now w
    ∧ (reconcile setOk now w).1.sched.is_hibernating ≠ w.sched.is_hibernating
    ∧ (setOk = false →
        (reconcile setOk now w).1.live = w.live
        ∧ (reconcile setOk now w).2 = .retry) := by
  unfold reconcile
  rw [if_neg hdiff]
  cases hd : desiredHib now w with
  | true =>
    cases setOk <;> simp [casRecord, hd] at hdiff ⊢ <;> exact hdiff
  | false =>
    cases setOk <;> simp [casRecord, hd] at hdiff ⊢ <;> exact hdiff

/-- Witness for `reconcile_commits_store_before_gateway` on `worldW` at
23:59 with a failing gateway. -/
theorem reconcile_commits_store_before_gateway_witness :
    desiredHib 1439 worldW ≠ worldW.sched.is_hibernating ∧
      ((reconcile false 1439 worldW).1.sched.is_hibernating =
          desiredHib 1439 worldW
        ∧ (reconcile false 1439 worldW).1.sched.is_hibernating ≠
            worldW.sched.is_hibernating
        ∧ (false = false →
            (reconcile false 1439 worldW).1.live = worldW.live
            ∧ (reconcile false 1439 worldW).2 = .retry)) :=
  ⟨by decide,
    reconcile_commits_store_before_gateway false 1439 worldW (by decide)⟩

/-- One tick-driven reconcile pass over a single schedule with a healthy
gateway (spec §4.5 invokes the Reconciler once per minute). -/
def tick (now : Nat) (w : World) : World := (reconcile true now w).1

/-- A sequence of ticks at the given minutes. -/
def ticksWhile (nows : List Nat) (w : World) : World :=
  nows.foldl (fun w now => tick now w) w

/-- A reconcile run whose desired state already matches the persisted flag is
a no-op (spec §4.4 step 3). -/
theorem reconcile_converged (setOk : Bool) (now : Nat) (w : World)
    (h : desiredHib now w = w.sched.is_hibernating) :
    reconcile setOk now w = (w, .converged) := by
  unfold reconcile
  rw [if_pos h]

/-- Ticks at minutes where the desired state keeps matching the persisted
flag leave the world unchanged. -/
theorem ticksWhile_converged (nows : List Nat) (w : World)
    (h : ∀ m ∈ nows, desiredHib m w = w.sched.is_hibernating) :
    ticksWhile nows w = w := by
  induction nows with
  | nil => rfl
  | cons a t ih =>
    have ha := h a (List.mem_cons_self a t)
    have hstep : tick a w = w := by
      unfold tick
      rw [reconcile_converged true a w ha]
    unfold ticksWhile
    simp only [List.foldl_cons]
    rw [hstep]
    exact ih fun m hm => h m (List.mem_cons_of_mem a hm)

/-- C4: a scale-down at `now1` observing `n` live replicas, any number of
hibernating ticks, then a scale-up at `now2` restores exactly `n` replicas:
`original_replica_count` is captured once at the transition into
hibernation, untouched by the intermediate ticks, used as the scale-up
target, and cleared afterwards. -/
theorem scale_round_trip (w : World) (n : Nat) (nows : List Nat)
    (now1 now2 : Nat)
    (henabled : w.sched.enabled = true)
    (hnothib : w.sched.is_hibernating = false)
    (hlive : w.live = n)
    (h1 : desired_state now1 w.sched.scale_down_time w.sched.scale_up_time =
      .hibernating)
    (hm : ∀ m ∈ nows,
      desired_state m w.sched.scale_down_time w.sched.scale_up_time =
        .hibernating)
    (h2 : desired_state now2 w.sched.scale_down_time w.sched.scale_up_time =
      .running) :
    (tick now1 w).sched.original_replica_count = some n
    ∧ (tick now1 w).sched.is_hibernating = true
    ∧ (tick now1 w).live = 0
    ∧ ticksWhile nows (tick now1 w) = tick now1 w
    ∧ (tick now2 (ticksWhile nows (tick now1 w))).live = n
    ∧ (tick now2 (ticksWhile nows (tick now1 w))).sched.original_replica_count
        = none
    ∧ (tick now2 (ticksWhile nows (tick now1 w))).sched.is_hibernating
        = false := by
  have hw1 : tick now1 w =
      { sched := casRecord w.sched true (some n) (some now1), live := 0 } := by
    unfold tick reconcile desiredHib
    rw [hlive]
    simp [henabled, h1, hnothib]
  have hsteady : ticksWhile nows (tick now1 w) = tick now1 w := by
    refine ticksWhile_converged nows (tick now1 w) fun m hmm => ?_
    rw [hw1]
    simp [desiredHib, casRecord, henabled, hm m hmm]
  have hup : tick now2 (tick now1 w) =
      { sched := casRecord w.sched false none (some now2), live := n } := by
    rw [hw1]
    unfold tick reconcile desiredHib
    simp [henabled, h2, casRecord]
  refine ⟨by rw [hw1]; rfl, by rw [hw1]; rfl, by rw [hw1], hsteady, ?_, ?_, ?_⟩
  · rw [hsteady, hup]
  · rw [hsteady, hup]; rfl
  · rw [hsteady, hup]; rfl

/-- Witness for `scale_round_trip`: `worldW` scaled down at 22:00, ticked at
23:00 and 03:00, scaled up at 08:00, restoring 3 replicas. -/
theorem scale_round_trip_witness :
    (worldW.sched.enabled = true ∧ worldW.sched.is_hibernating = false ∧
      worldW.live = 3) ∧
      ((tick 1320 worldW).sched.original_replica_count = some 3
      ∧ (tick 1320 worldW).sched.is_hibernating = true
      ∧ (tick 1320 worldW).live = 0
      ∧ ticksWhile [1380, 180] (tick 1320 worldW) = tick 1320 worldW
      ∧ (tick 480 (ticksWhile [1380, 180] (tick 1320 worldW))).live = 3
      ∧ (tick 480 (ticksWhile [1380, 180]
          (tick 1320 worldW))).sched.original_replica_count = none
      ∧ (tick 480 (ticksWhile [1380, 180]
          (tick 1320 worldW))).sched.is_hibernating = false) :=
  ⟨⟨by decide, by decide, by decide⟩,
    scale_round_trip worldW 3 [1380, 180] 1320 480 (by decide) (by decide)
      (by decide) (by decide) (by decide) (by decide)⟩

/-- Modelled from the spec: the Lifecycle API enable/disable update
(spec §4.6) is not under src/; it stores the new `enabled` value and then
synchronously invokes `reconcile` with the post-update schedule state before
returning, reusing the §4.4 algorithm. -/
def update_enabled (setOk : Bool) (now : Nat) (e : Bool) (w : World) :
    World :=
  (reconcile setOk now { w with sched := { w.sched with enabled := e } }).1

/-- C7: disabling an enabled, hibernating schedule performs the scale-up
synchronously within the same update call: the live replica count equals the
stored `original_replica_count` when `update_enabled` returns, and the flag
is cleared, not left for a later tick. -/
theorem disable_while_hibernating_scales_up (w : World) (n now : Nat)
    (_henabled : w.sched.enabled = true)
    (hhib : w.sched.is_hibernating = true)
    (horig : w.sched.original_replica_count = some n) :
    (update_enabled true now false w).live = n
    ∧ (update_enabled true now false w).sched.is_hibernating = false := by
  unfold update_enabled reconcile desiredHib
  simp [hhib, horig, casRecord]

/-- Witness for `disable_while_hibernating_scales_up` on the hibernating
world reached from `worldW` by the 22:00 scale-down tick. -/
theorem disable_while_hibernating_scales_up_witness :
    ((tick 1320 worldW).sched.enabled = true
      ∧ (tick 1320 worldW).sched.is_hibernating = true
      ∧ (tick 1320 worldW).sched.original_replica_count = some 3) ∧
      ((update_enabled true 1350 false (tick 1320 worldW)).live = 3
      ∧ (update_enabled true 1350 false
          (tick 1320 worldW)).sched.is_hibernating = false) :=
  ⟨⟨by decide, by decide, by decide⟩,
    disable_while_hibernating_scales_up (tick 1320 worldW) 3 1350 (by decide)
      (by decide) (by decide)⟩

/-- The frontend Schedule record exactly as declared in
frontend/src/types/index.ts (lines 21-33): `original_replicas` is declared
`number` — not optional and not nullable — while `last_scaled_at` is declared
`string | null`.  The `namespace` field is spelled `ns` because `namespace`
is reserved in Lean. -/
structure Schedule where
  id : Nat
  ns : String
  deployment_name : String
  scale_down_time : String
  scale_up_time : String
  original_replicas : Int
  enabled : Bool
  is_scaled_down : Bool
  last_scaled_at : Option String
  created_at : String
  updated_at : String
deriving DecidableEq, Repr

/-- The replicas-badge guard of ScheduleList
(frontend/src/components/Layout.tsx concatenation, `ScheduleList`):
`schedule.original_replicas !== null && (…)` — evaluated on the runtime JSON
value of the field, embedded as `Option Int` with `none` for null. -/
def rendersReplicasBadge (original_replicas : Option Int) : Bool :=
  original_replicas.isSome

/-- C8 (code bug): the backend hands out `original_replica_count = null` from
creation until the first hibernation (modelled `mkSchedule`/`try_create`),
and the repository consumer ScheduleList guards for exactly that null; but
the declared frontend `Schedule` type makes `original_replicas` a plain
number, so no value of the declared type can show the null the claim (and the
guard) expect — on the declared type the guard is constantly true. -/
theorem schedule_type_cannot_represent_null_replicas :
    (try_create [] 1 "apps" "web" 1320 480).1 =
      .ok (mkSchedule 1 "apps" "web" 1320 480)
    ∧ (mkSchedule 1 "apps" "web" 1320 480).original_replica_count = none
    ∧ rendersReplicasBadge none = false
    ∧ ∀ s : Schedule, rendersReplicasBadge (some s.original_replicas) = true := by
  exact ⟨rfl, rfl, rfl, fun s => rfl⟩

/-- The ScheduleCreate request body (frontend/src/types/index.ts lines
35-40): exactly namespace, deployment_name, scale_down_time and
scale_up_time — no enabled field exists in this type. -/
structure ScheduleCreate where
  ns : String
  deployment_name : String
  scale_down_time : String
  scale_up_time : String
deriving DecidableEq, Repr

/-- The ScheduleUpdate request body (frontend/src/types/index.ts lines
42-46): three optional fields including `enabled`. -/
structure ScheduleUpdate where
  scale_down_time : Option String
  scale_up_time : Option String
  enabled : Option Bool
deriving DecidableEq, Repr

/-- What a ScheduleForm submission does: POST a create body, PATCH an update
body to a schedule id, or stop with a validation error. -/
inductive SubmitAction where
  | createReq (body : ScheduleCreate)
  | updateReq (id : Nat) (body : ScheduleUpdate)
  | rejected
deriving DecidableEq, Repr

/-- The ScheduleForm state feeding handleSubmit: the selected namespace and
deployment, the two times, the "Enable schedule immediately" checkbox, and
the duplicate found by checkForExistingSchedule (create mode only). -/
structure FormState where
  selectedNamespace : String
  selectedDeployment : String
  scaleDownTime : String
  scaleUpTime : String
  enabled : Bool
  existingScheduleForDeployment : Option Schedule
deriving DecidableEq, Repr

/-- Embeds handleSubmit of ScheduleForm (frontend/src/types/index.ts
concatenation, lines 199-239):  rejects if no deployment is selected;
rejects in create mode when a duplicate schedule was found; in edit mode
(an existing schedule was passed in) calls `schedulesAPI.update` with
`{scale_down_time, scale_up_time, enabled}`; otherwise calls
`schedulesAPI.create` with
`{namespace, deployment_name, scale_down_time, scale_up_time}`.
`schedulesAPI.create`/`update` (frontend/src/services/api.ts lines 132-140)
POST/PATCH these bodies unchanged. -/
def handleSubmit (existingSchedule : Option Schedule) (f : FormState) :
    SubmitAction :=
  if f.selectedDeployment = "" then .rejected
  else if existingSchedule.isNone && f.existingScheduleForDeployment.isSome
    then .rejected
  else
    match existingSchedule with
    | some s =>
      .updateReq s.id
        { scale_down_time := some f.scaleDownTime,
          scale_up_time := some f.scaleUpTime,
          enabled := some f.enabled }
    | none =>
      .createReq
        { ns := f.selectedNamespace,
          deployment_name := f.selectedDeployment,
          scale_down_time := f.scaleDownTime,
          scale_up_time := f.scaleUpTime }

/-- C9: a create submission sends exactly
{namespace, deployment_name, scale_down_time, scale_up_time} and is
independent of the "Enable schedule immediately" checkbox; the checkbox value
is transmitted only on update of an existing schedule. -/
theorem create_request_never_carries_enabled (f : FormState) (s : Schedule)
    (e e2 : Bool) (hdep : f.selectedDeployment ≠ "")
    (hdup : f.existingScheduleForDeployment = none) :
    handleSubmit none { f with enabled := e } =
      .createReq
        { ns := f.selectedNamespace,
          deployment_name := f.selectedDeployment,
          scale_down_time := f.scaleDownTime,
          scale_up_time := f.scaleUpTime }
    ∧ handleSubmit none { f with enabled := e } =
        handleSubmit none { f with enabled := e2 }
    ∧ handleSubmit (some s) f =
        .updateReq s.id
          { scale_down_time := some f.scaleDownTime,
            scale_up_time := some f.scaleUpTime,
            enabled := some f.enabled } := by
  unfold handleSubmit
  simp [hdep, hdup]

/-- A concrete form state for the ScheduleForm theorems. -/
def formW : FormState :=
  { selectedNamespace := "apps", selectedDeployment := "web",
    scaleDownTime := "22:00", scaleUpTime := "08:00", enabled := false,
    existingScheduleForDeployment := none }

/-- A concrete frontend schedule record for the ScheduleForm theorems. -/
def scheduleW : Schedule :=
  { id := 7, ns := "apps", deployment_name := "web",
    scale_down_time := "22:00", scale_up_time := "08:00",
    original_replicas := 3, enabled := true, is_scaled_down := false,
    last_scaled_at := none, created_at := "2025-01-01",
    updated_at := "2025-01-02" }

/-- Witness for `create_request_never_carries_enabled` on `formW` and
`scheduleW`. -/
theorem create_request_never_carries_enabled_witness :
    (formW.selectedDeployment ≠ "" ∧
      formW.existingScheduleForDeployment = none) ∧
      (handleSubmit none { formW with enabled := true } =
        .createReq
          { ns := formW.selectedNamespace,
            deployment_name := formW.selectedDeployment,
            scale_down_time := formW.scaleDownTime,
            scale_up_time := formW.scaleUpTime }
      ∧ handleSubmit none { formW with enabled := true } =
          handleSubmit none { formW with enabled := false }
      ∧ handleSubmit (some scheduleW) formW =
          .updateReq scheduleW.id
            { scale_down_time := some formW.scaleDownTime,
              scale_up_time := some formW.scaleUpTime,
              enabled := some formW.enabled }) :=
  ⟨⟨by decide, by decide⟩,
    create_request_never_carries_enabled formW scheduleW true false
      (by decide) (by decide)⟩

/-- The four auth-related localStorage keys the interceptor touches
(frontend/src/services/api.ts). -/
structure LocalStorage where
  access_token : Option String
  refresh_token : Option String
  user_email : Option String
  user_role : Option String
deriving DecidableEq, Repr

/-- Result of the awaited `authAPI.refresh` call: a new token pair, or a
rejection (network error or backend refusal). -/
inductive RefreshResult where
  | ok (access refresh : String)
  | failed
deriving DecidableEq, Repr

/-- What the response error interceptor resolves to: retry the original
request once with the fresh access token, redirect the browser to /login
(always together with rejecting the original error), or just reject. -/
inductive InterceptAction where
  | retryRequest (newAccess : String)
  | redirectLogin
  | reject
deriving DecidableEq, Repr

/-- localStorage after the interceptor removes access_token, refresh_token,
user_email and user_role. -/
def clearedStorage : LocalStorage :=
  { access_token := none, refresh_token := none, user_email := none,
    user_role := none }

/-- Embeds the axios response error interceptor
(frontend/src/services/api.ts, lines 40-89).  Inputs: the HTTP status of the
failed response, the `_retry` flag already on the request config, the
outcome the `authAPI.refresh` call would have, and localStorage.  Output:
the action, localStorage afterwards, and the `_retry` flag afterwards.
On a 401 with `_retry` unset the code sets `_retry`, and if a refresh token
is stored it refreshes: on success it stores both new tokens and retries the
original request; on failure it clears the four keys and redirects to
/login.  If no refresh token is stored, control falls through to the final
401 check, which clears the four keys and redirects.  A 401 with `_retry`
already set takes only that final check.  Non-401 errors are rejected
unchanged. -/
def responseInterceptor (status : Nat) (retryFlag : Bool)
    (refreshOutcome : RefreshResult) (ls : LocalStorage) :
    InterceptAction × LocalStorage × Bool :=
  if status = 401 ∧ retryFlag = false then
    match ls.refresh_token with
    | some _ =>
      match refreshOutcome with
      | .ok a r =>
        (.retryRequest a,
          { ls with access_token := some a, refresh_token := some r }, true)
      | .failed => (.redirectLogin, clearedStorage, true)
    | none => (.redirectLogin, clearedStorage, true)
  else if status = 401 then (.redirectLogin, clearedStorage, retryFlag)
  else (.reject, ls, retryFlag)

/-- C10: on a 401 the client refreshes and retries at most once — a request
whose `_retry` flag is already set is never retried again but logged out —
and whenever no refresh token is stored or the refresh fails, the four auth
keys are removed from localStorage and the browser is redirected to
/login. -/
theorem interceptor_single_refresh_and_logout (status : Nat)
    (o : RefreshResult) (ls : LocalStorage) (rt a r : String)
    (h401 : status = 401) :
    responseInterceptor status true o ls =
      (.redirectLogin, clearedStorage, true)
    ∧ (ls.refresh_token = none →
        responseInterceptor status false o ls =
          (.redirectLogin, clearedStorage, true))
    ∧ (ls.refresh_token = some rt →
        responseInterceptor status false .failed ls =
          (.redirectLogin, clearedStorage, true))
    ∧ (ls.refresh_token = some rt →
        responseInterceptor status false (.ok a r) ls =
          (.retryRequest a,
            { ls with access_token := some a, refresh_token := some r },
            true)) := by
  subst h401
  refine ⟨?_, ?_, ?_, ?_⟩
  · simp [responseInterceptor]
  · intro hnone
    simp [responseInterceptor, hnone]
  · intro hsome
    simp [responseInterceptor, hsome]
  · intro hsome
    simp [responseInterceptor, hsome]

/-- A concrete localStorage with all four keys set, for the interceptor
witness. -/
def storageW : LocalStorage :=
  { access_token := some "acc0", refresh_token := some "ref0",
    user_email := some "admin@x", user_role := some "admin" }

/-- Witness for `interceptor_single_refresh_and_logout` at status 401 on
`storageW`. -/
theorem interceptor_single_refresh_and_logout_witness :
    (401 : Nat) = 401 ∧
      (responseInterceptor 401 true .failed storageW =
        (.redirectLogin, clearedStorage, true)
      ∧ (storageW.refresh_token = none →
          responseInterceptor 401 false .failed storageW =
            (.redirectLogin, clearedStorage, true))
      ∧ (storageW.refresh_token = some "ref0" →
          responseInterceptor 401 false .failed storageW =
            (.redirectLogin, clearedStorage, true))
      ∧ (storageW.refresh_token = some "ref0" →
          responseInterceptor 401 false (.ok "acc1" "ref1") storageW =
            (.retryRequest "acc1",
              { storageW with access_token := some "acc1",
                              refresh_token := some "ref1" },
              true))) :=
  ⟨rfl,
    interceptor_single_refresh_and_logout 401 .failed storageW "ref0"
      "acc1" "ref1" rfl⟩
